import Mathlib

/-!
Verification development for the textrefine-score-engine repository.

The Python sources are shallowly embedded over the rationals: float scores
become elements of the rational numbers, Python round(x, n) becomes rounding of
the scaled rational to the nearest integer (ties, which never arise at the
inputs considered here, are taken half up), fallible steps become Option or
explicit outcome records, and the two external engines (the LanguageTool
grammar checker and the wordfreq Zipf table) together with the spaCy tokenizer
become oracle parameters, since their behaviour is outside the repository.
-/

namespace TextRefine

/-- Python round(x, 4), on the rational values that arise in scoring. -/
def round4 (q : ℚ) : ℚ := (round (q * 10000) : ℤ) / 10000

/-- Python round(x, 2). -/
def round2 (q : ℚ) : ℚ := (round (q * 100) : ℤ) / 100

theorem round4_mono {a b : ℚ} (h : a ≤ b) : round4 a ≤ round4 b := by
  unfold round4
  have h2 : round (a * 10000) ≤ round (b * 10000) := by
    rw [round_eq, round_eq]
    exact Int.floor_mono (by linarith)
  have h3 : ((round (a * 10000) : ℤ) : ℚ) ≤ ((round (b * 10000) : ℤ) : ℚ) := by
    exact_mod_cast h2
  linarith

/-- The whitespace tokenizer of Python str.split() with no separator argument:
maximal runs of non-whitespace characters, with no empty chunks. -/
def words_aux : List Char → List Char → List (List Char)
  | [], acc => if acc = [] then [] else [acc.reverse]
  | c :: cs, acc =>
      if c.isWhitespace then
        if acc = [] then words_aux cs [] else acc.reverse :: words_aux cs []
      else
        words_aux cs (c :: acc)

/-- len(text.split()) as used by the endpoint and the correctness scorer. -/
def python_word_count (s : String) : ℕ := (words_aux s.toList []).length

/-- The Python test "not text.strip()": true exactly for empty or whitespace-only text. -/
def python_blank (s : String) : Bool := s.toList.all (fun c => c.isWhitespace)

theorem words_aux_of_all_whitespace :
    ∀ (cs : List Char), (∀ c ∈ cs, c.isWhitespace = true) → words_aux cs [] = [] := by
  intro cs h
  induction cs with
  | nil => rfl
  | cons c cs ih =>
      have hc : c.isWhitespace = true := h c (by simp)
      simp only [words_aux, hc, if_true, if_pos rfl]
      exact ih (fun d hd => h d (by simp [hd]))

theorem python_word_count_of_blank {s : String} (h : python_blank s = true) :
    python_word_count s = 0 := by
  unfold python_blank at h
  unfold python_word_count
  rw [words_aux_of_all_whitespace s.toList (by simpa [List.all_eq_true] using h)]
  rfl

/-! ### commons/models.py -/

/-- The closed category taxonomy of commons/models.py. -/
inductive ErrorCategory where
  | GRAMMAR_RULES
  | MECHANICS
  | SPELLING_TYPING
  | WORD_USAGE
  | MEANING_LOGIC
  | STYLISTIC_ISSUES
  | CONTEXTUAL_STYLE
  deriving DecidableEq, Repr

/-- The fixed severity weights attached to the enumeration members. -/
def ErrorCategory.severity : ErrorCategory → ℕ
  | .GRAMMAR_RULES => 4
  | .MECHANICS => 2
  | .SPELLING_TYPING => 2
  | .WORD_USAGE => 3
  | .MEANING_LOGIC => 5
  | .STYLISTIC_ISSUES => 2
  | .CONTEXTUAL_STYLE => 1

/-- commons/models.py TextIssue. -/
structure TextIssue where
  message : String
  replacements : List String
  error_text : String
  error_length : ℕ
  start_offset : ℕ
  category : ErrorCategory
  rule_issue_type : String
  deriving DecidableEq, Repr

/-- TextIssue.penalty = category.severity. -/
def TextIssue.penalty (i : TextIssue) : ℕ := i.category.severity

/-! ### correctness/service.py -/

/-- correctness/models.py CorrectnessScoreBreakdown. -/
structure CorrectnessScoreBreakdown where
  category : ErrorCategory
  count : ℕ
  penalty : ℚ
  deriving DecidableEq, Repr

/-- correctness/models.py CorrectnessResult (scores as rationals). -/
structure CorrectnessResult where
  score : ℚ
  word_count : ℕ
  normalized_penalty : ℚ
  issues : List TextIssue
  breakdown : List CorrectnessScoreBreakdown
  deriving DecidableEq, Repr

/-- One step of the per-category accumulation loop of _score_text_issues
(insertion-ordered dict of CorrectnessScoreBreakdown values). -/
def add_issue_to_breakdown (b : List CorrectnessScoreBreakdown) (i : TextIssue) :
    List CorrectnessScoreBreakdown :=
  if b.any (fun e => e.category = i.category) then
    b.map (fun e =>
      if e.category = i.category then
        { e with count := e.count + 1, penalty := e.penalty + (i.penalty : ℚ) }
      else e)
  else
    b ++ [{ category := i.category, count := 1, penalty := (i.penalty : ℚ) }]

/-- list(categories.values()) after the loop of _score_text_issues. -/
def breakdown_of (issues : List TextIssue) : List CorrectnessScoreBreakdown :=
  issues.foldl add_issue_to_breakdown []

/-- total_penalty accumulated over the issues. -/
def total_penalty (issues : List TextIssue) : ℕ :=
  (issues.map TextIssue.penalty).sum

theorem total_penalty_append (l : List TextIssue) (i : TextIssue) :
    total_penalty (l ++ [i]) = total_penalty l + i.penalty := by
  simp [total_penalty]

theorem total_penalty_replicate (n : ℕ) (i : TextIssue) :
    total_penalty (List.replicate n i) = n * i.penalty := by
  induction n with
  | zero => simp [total_penalty]
  | succ n ih =>
      simp only [List.replicate_succ, total_penalty, List.map_cons, List.sum_cons] at ih ⊢
      rw [ih]
      ring

/-- normalized_penalty = round(total_penalty / max(1, word_count), 4). -/
def correctness_normalized_penalty (word_count : ℕ) (issues : List TextIssue) : ℚ :=
  round4 ((total_penalty issues : ℚ) / ((max 1 word_count : ℕ) : ℚ))

/-- score = round(1 / (1 + normalized_penalty), 4). -/
def correctness_score (word_count : ℕ) (issues : List TextIssue) : ℚ :=
  round4 (1 / (1 + correctness_normalized_penalty word_count issues))

/-- CorrectnessService._score_text_issues, with word_count = len(text.split())
already computed.  The zero-word early return and the empty-issue case build
only empty lists and plain numbers and validate.  For a non-empty issue list
the first loop iteration constructs CorrectnessScoreBreakdown, whose category
field is annotated with the ErrorCategory enum of language_tool.models while
the incoming issues carry the ErrorCategory of commons.models (and
CorrectnessResult.issues is likewise annotated with the TextIssue class of
correctness.models, not the commons one the service passes), so pydantic v2
rejects the foreign member and the method raises ValidationError: the error
case here.  The scoring arithmetic is therefore never reached with a non-empty
issue list. -/
def score_text_issues (word_count : ℕ) (issues : List TextIssue) :
    Except Unit CorrectnessResult :=
  if word_count = 0 then
    .ok { score := 0, word_count := 0, normalized_penalty := 0, issues := []
          breakdown := [] }
  else
    match issues with
    | [] =>
        .ok { score := correctness_score word_count []
              word_count := word_count
              normalized_penalty := correctness_normalized_penalty word_count []
              issues := []
              breakdown := [] }
    | _ :: _ => .error ()

/-- Modelled from the spec for comparison (the scoring result claims C7 and C8
describe, and the arithmetic written in the source): _score_text_issues as the
method is documented to behave, with the per-category aggregation and the
rounded normalized penalty and score, as it would return if the breakdown and
result models accepted the issue objects the service passes them. -/
def claim_score_text_issues (word_count : ℕ) (issues : List TextIssue) :
    CorrectnessResult :=
  if word_count = 0 then
    { score := 0, word_count := 0, normalized_penalty := 0, issues := [], breakdown := [] }
  else
    { score := correctness_score word_count issues
      word_count := word_count
      normalized_penalty := correctness_normalized_penalty word_count issues
      issues := issues
      breakdown := breakdown_of issues }

/-! ### vocabulary/precision_checker.py -/

/-- vocabulary/models.py PrecisionScoreBreakdown. -/
structure PrecisionScoreBreakdown where
  category : ErrorCategory
  count : ℕ
  penalty : ℚ
  deriving DecidableEq, Repr

/-- vocabulary/models.py PrecisionResult (its score field carries no range
constraint in the pydantic model). -/
structure PrecisionResult where
  score : ℚ
  word_count : ℕ
  normalized_penalty : ℚ
  issues : List TextIssue
  breakdown : List PrecisionScoreBreakdown
  deriving DecidableEq, Repr

/-- The precision-relevant subset fixed in PrecisionChecker.__init__. -/
def precision_categories : List ErrorCategory :=
  [ErrorCategory.WORD_USAGE, ErrorCategory.STYLISTIC_ISSUES]

/-- Per-category accumulation of the PrecisionChecker.evaluate loop
(count and summed severity, in first-appearance order). -/
def add_issue_to_precision_breakdown (b : List PrecisionScoreBreakdown) (i : TextIssue) :
    List PrecisionScoreBreakdown :=
  if b.any (fun e => e.category = i.category) then
    b.map (fun e =>
      if e.category = i.category then
        { e with count := e.count + 1, penalty := e.penalty + (i.category.severity : ℚ) }
      else e)
  else
    b ++ [{ category := i.category, count := 1, penalty := (i.category.severity : ℚ) }]

/-- The body of PrecisionChecker.evaluate, once the two external inputs are in
hand: issues_raw is what language_tool.get_text_issues(text) returned, and
word_count is the number of alphabetic spaCy tokens of the text. -/
def precision_evaluate (issues_raw : List TextIssue) (word_count : ℕ) : PrecisionResult :=
  let relevant := issues_raw.filter (fun i => i.category ∈ precision_categories)
  if word_count = 0 then
    { score := 0, word_count := 0, normalized_penalty := 0, issues := [], breakdown := [] }
  else
    let tp : ℚ := ((relevant.map (fun i => i.category.severity)).sum : ℕ)
    let np := round4 (tp / ((max word_count 1 : ℕ) : ℚ))
    { score := round4 (1 - np)
      word_count := word_count
      normalized_penalty := np
      issues := relevant
      breakdown := (relevant.foldl add_issue_to_precision_breakdown []).map
        (fun e => { e with penalty := round2 e.penalty }) }

/-- PrecisionChecker.evaluate as a method of the text alone: the issue list is
fetched from the grammar engine on the spot (an oracle parameter here), and the
issue list computed by the correctness analyzer is not a parameter of the
method. -/
def precision_checker_evaluate (get_text_issues : String → List TextIssue)
    (alpha_count : String → ℕ) (text : String) : PrecisionResult :=
  precision_evaluate (get_text_issues text) (alpha_count text)

/-- Modelled from the spec for comparison (the claim about reuse of the
correctness issue catalog): the same precision computation, but fed the
issues[] already produced by the correctness analyzer and passed into the
vocabulary analyzer, with no fresh grammar-engine query. -/
def claim_precision_from_passed_issues (alpha_count : String → ℕ) (text : String)
    (passed_issues : List TextIssue) : PrecisionResult :=
  precision_evaluate passed_issues (alpha_count text)

/-! ### vocabulary/sophistication_checker.py -/

/-- vocabulary/models.py SophisticationLevel. -/
inductive SophisticationLevel where
  | BASIC
  | CONVERSATIONAL
  | ACADEMIC
  | ADVANCED
  | ERUDITE
  deriving DecidableEq, Repr

/-- SophisticationLevel.get_level threshold chain. -/
def SophisticationLevel.get_level (score : ℚ) : SophisticationLevel :=
  if score < 1/5 then .BASIC
  else if score < 9/20 then .CONVERSATIONAL
  else if score < 3/5 then .ACADEMIC
  else if score < 19/20 then .ADVANCED
  else .ERUDITE

/-- The four frequency buckets built by SophisticationChecker.evaluate. -/
structure SophisticationBuckets where
  common : List String
  mid : List String
  rare : List String
  unknown : List String
  deriving DecidableEq, Repr

/-- The substitution step at the top of the classification loop: a token equal
to the first component of some pair in replacement_words is replaced by the
second component of the first such pair before classification.  The loop
variables name the components (replacement_word, original_word), so the token
matching a replacement is mapped back to the original. -/
def soph_substitute (replacement_words : List (String × String)) (word : String) : String :=
  match replacement_words.find? (fun p => word = p.1) with
  | some p => p.2
  | none => word

/-- The classification loop of SophisticationChecker.evaluate: each (already
lowercased, alphabetic, non-stop) token is substituted and then bucketed by the
Zipf frequency of the resulting word (zipf is the wordfreq oracle; an unseen
word has Zipf value 0). -/
def classify_words (zipf : String → ℚ) (replacement_words : List (String × String))
    (words : List String) : SophisticationBuckets :=
  words.foldl
    (fun b w =>
      let w2 := soph_substitute replacement_words w
      let z := zipf w2
      if 5 ≤ z then { b with common := b.common ++ [w2] }
      else if 7/2 ≤ z then { b with mid := b.mid ++ [w2] }
      else if 0 < z then { b with rare := b.rare ++ [w2] }
      else { b with unknown := b.unknown ++ [w2] })
    { common := [], mid := [], rare := [], unknown := [] }

/-- vocabulary/models.py SophisticationResult: the pydantic model declares only
these fields (the unknown_count and breakdown keyword arguments passed by the
checker are dropped by pydantic, so the unknown count survives only inside the
buckets). -/
structure SophisticationResult where
  score : ℚ
  word_count : ℕ
  common_count : ℕ
  mid_count : ℕ
  rare_count : ℕ
  level : SophisticationLevel
  deriving DecidableEq, Repr

/-- compute_sophistication_score with the default linear method. -/
def compute_sophistication_score (b : SophisticationBuckets) (word_count : ℕ) :
    ℚ × SophisticationLevel :=
  let weighted : ℚ :=
    ((b.common.length : ℚ) * (1/2) + (b.mid.length : ℚ) * 1 +
      (b.rare.length : ℚ) * (3/2) + (b.unknown.length : ℚ) * (-(1/5))) / (word_count : ℚ)
  let meaningful : ℚ := (((b.rare.length + b.mid.length : ℕ) : ℚ)) / (word_count : ℚ)
  let ratio_adjustment := 1/2 + meaningful * (1/2)
  let normalized_score := round4 (min 1 (weighted * ratio_adjustment))
  (normalized_score, SophisticationLevel.get_level normalized_score)

/-- SophisticationChecker.evaluate, with the spaCy token extraction already
performed (words is the list of lowercased alphabetic non-stop tokens; an
empty list covers both early returns of the method). -/
def sophistication_evaluate (zipf : String → ℚ)
    (replacement_words : List (String × String)) (words : List String) :
    SophisticationResult :=
  if words.length = 0 then
    { score := 0, word_count := 0, common_count := 0, mid_count := 0, rare_count := 0
      level := .BASIC }
  else
    let b := classify_words zipf replacement_words words
    let sl := compute_sophistication_score b words.length
    { score := sl.1
      word_count := words.length
      common_count := b.common.length
      mid_count := b.mid.length
      rare_count := b.rare.length
      level := sl.2 }

/-! ### readability/service.py -/

/-- readability/models.py ReadabilityResult (scores as rationals). -/
structure ReadabilityResult where
  flesch_reading_ease : ℚ
  dale_chall_score : ℚ
  avg_words_per_sentence : ℚ
  estimated_reading_time : ℕ
  target_audience : Option String
  score : ℚ
  audience_adjusted_score : Option ℚ
  issues : List String
  suggestions : List String
  audience_appropriate : Option Bool
  audience_issues : List String
  deriving DecidableEq, Repr

/-- readability/service.py ReadabilityMetric triple. -/
structure ReadabilityMetric where
  flesch_reading_ease : ℚ
  dale_chall_score : ℚ
  avg_words_per_sentence : ℚ
  deriving DecidableEq, Repr

/-- ReadabilityService._normalize_metric: each raw metric is rescaled into
[0, 1]; in particular the sentence-length slot becomes the capped deviation of
the average from the ideal 17.5, divided by 30. -/
def normalize_metric (fre dale_chall avg_words : ℚ) : ReadabilityMetric :=
  { flesch_reading_ease := max 0 (min 1 (fre / 100))
    dale_chall_score := max 0 (min 1 (1 - ((dale_chall - 49/10) / (10 - 49/10))))
    avg_words_per_sentence := min 1 (|avg_words - 35/2| / 30) }

/-- ReadabilityService._calculate_composite_score: the branch thresholds 15,
25 and 30 are compared against the already normalized metrics returned by
_normalize_metric. -/
def calculate_composite_score (fre dale_chall avg_words : ℚ) : ℚ :=
  let m := normalize_metric fre dale_chall avg_words
  let sentence_score : ℚ :=
    if m.avg_words_per_sentence ≤ 15 then 1
    else if m.avg_words_per_sentence ≤ 25 then 1 - (m.avg_words_per_sentence - 15) * (1/10)
    else max (1/10) (1 - (m.avg_words_per_sentence - 25) * (1/20))
  let base : ℚ :=
    min 1
      ((6/10 * m.flesch_reading_ease + 2/10 * m.dale_chall_score + 2/10 * sentence_score)
        * (12/10))
  let adjusted : ℚ :=
    if m.flesch_reading_ease < 30 then
      max (1/10) (base - 2/10 * (1 - m.flesch_reading_ease / 30))
    else base
  max 0 (min 1 adjusted)

/-- Modelled from the spec for comparison (the claim about the composite
formula): fre_n = fre/100, dc_n clamped as stated, sl_n computed from the raw
average words per sentence, and the difficulty penalty applied exactly when the
raw Flesch Reading Ease is below 30. -/
def claim_composite_score (fre dale_chall avg_words : ℚ) : ℚ :=
  let fre_n := fre / 100
  let dc_n := max 0 (min 1 (1 - (max 0 (dale_chall - 49/10)) / (10 - 49/10)))
  let sl_n : ℚ :=
    if avg_words ≤ 15 then 1
    else if avg_words ≤ 25 then 1 - (avg_words - 15) * (1/10)
    else max (1/10) (1 - (avg_words - 25) * (1/20))
  let base : ℚ := min 1 ((6/10 * fre_n + 2/10 * dc_n + 2/10 * sl_n) * (12/10))
  if fre < 30 then max (1/10) (base - 2/10 * (1 - fre / 30)) else base

/-- The early-return value of ReadabilityService._analyze_impl for empty or
whitespace-only text. -/
def empty_readability_result : ReadabilityResult :=
  { flesch_reading_ease := 100
    dale_chall_score := 0
    avg_words_per_sentence := 0
    estimated_reading_time := 0
    target_audience := none
    score := 1
    audience_adjusted_score := none
    issues := ["Empty text provided"]
    suggestions := ["Provide some text to analyze"]
    audience_appropriate := none
    audience_issues := [] }

/-- ReadabilityService._analyze_impl: the guard on text.strip() followed by the
metric pipeline; the non-blank branch (textstat metrics, issue generation,
composite score, read time) is abstracted as an oracle since no claim touches
it. -/
def readability_analyze_impl (nonblank_analysis : String → ReadabilityResult)
    (text : String) : ReadabilityResult :=
  if python_blank text then empty_readability_result else nonblank_analysis text

/-! ### coherence/service.py -/

/-- coherence/models.py CoherenceResult (scores as rationals). -/
structure CoherenceResult where
  score : ℚ
  text_coherence : ℚ
  topic_coherence : Option ℚ
  feedback : String
  suggestions : List String
  confidence : ℚ
  deriving DecidableEq, Repr

/-- CoherenceService.analyze: None when no credential was configured at
startup, a fixed zero-score result on blank text, and otherwise the memoized
LLM analysis (an oracle parameter here). -/
def coherence_analyze (skip : Bool) (llm : String → Option String → CoherenceResult)
    (text : String) (topic : Option String) : Option CoherenceResult :=
  if skip then none
  else if python_blank text then
    some
      { score := 0
        text_coherence := 0
        topic_coherence := if topic.isSome then some 0 else none
        feedback := "Empty text provided for analysis"
        suggestions := ["Provide a valid text for coherence analysis"]
        confidence := 1 }
  else some (llm text topic)

/-! ### models.py (aggregator) -/

/-- vocabulary/models.py VocabularyResult. -/
structure VocabularyResult where
  score : ℚ
  sophistication : SophisticationResult
  precision : PrecisionResult
  lexical_diversity_ttr : ℚ
  deriving DecidableEq, Repr

def CORRECTNESS_WEIGHT : ℚ := 3/10
def COHERENCE_WEIGHT : ℚ := 1/4
def VOCABULARY_WEIGHT : ℚ := 1/4
def READABILITY_WEIGHT : ℚ := 1/5
def MIN_WORD_COUNT : ℕ := 20

/-- models.py GlobalScore. -/
structure GlobalScore where
  coherence : Option CoherenceResult
  correctness : CorrectnessResult
  readability : ReadabilityResult
  vocabulary : VocabularyResult
  deriving DecidableEq, Repr

/-- GlobalScore._compute_score.  The Python body is a single conditional
expression, and a conditional expression binds more loosely than addition, so
the condition governs the entire sum: the weighted sum of all four components
when coherence is present, and the literal 0 when it is absent. -/
def GlobalScore.compute_score (g : GlobalScore) : ℚ :=
  match g.coherence with
  | some coh =>
      CORRECTNESS_WEIGHT * g.correctness.score
        + VOCABULARY_WEIGHT * g.vocabulary.score
        + READABILITY_WEIGHT * g.readability.score
        + COHERENCE_WEIGHT * coh.score
  | none => 0

/-- Modelled from the spec for comparison (the claim about the aggregate):
each term contributes weight times score, with the coherence term present
exactly when the coherence sub-result is, and no renormalization. -/
def claim_global_score (g : GlobalScore) : ℚ :=
  CORRECTNESS_WEIGHT * g.correctness.score
    + VOCABULARY_WEIGHT * g.vocabulary.score
    + READABILITY_WEIGHT * g.readability.score
    + (match g.coherence with
       | some coh => COHERENCE_WEIGHT * coh.score
       | none => 0)

/-! ### correctness/service.py caching and api/endpoints/evaluation.py -/

/-- CorrectnessService._compute_score_impl: LanguageToolError raised by the
grammar-engine call (here the Except-valued upstream oracle, whose error case
covers the 10 second timeout) is caught, logged, and turned into None; the
pydantic ValidationError raised by _score_text_issues on any non-empty issue
list is swallowed by the broad except arm and likewise becomes None. -/
def compute_score_impl (upstream : String → Except Unit (List TextIssue))
    (text : String) : Option CorrectnessResult :=
  match upstream text with
  | .ok issues =>
      match score_text_issues (python_word_count text) issues with
      | .ok r => some r
      | .error _ => none
  | .error _ => none

/-- The memo table of functools.lru_cache(maxsize=128) wrapped around
_compute_score_impl, keyed by the exact text.  Eviction is not modelled; the
runs considered stay far below the 128-entry bound. -/
abbrev CorrectnessCache := List (String × Option CorrectnessResult)

/-- CorrectnessService.analyze through the lru_cache wrapper: a hit returns the
stored value (the stored value may be None, since a None return of the
implementation is an ordinary cached value); a miss runs the implementation
once and stores whatever it returned.  The third component counts upstream
invocations made by the call. -/
def cached_analyze (upstream : String → Except Unit (List TextIssue))
    (cache : CorrectnessCache) (text : String) :
    Option CorrectnessResult × CorrectnessCache × ℕ :=
  match cache.find? (fun e => e.1 = text) with
  | some e => (e.2, cache, 0)
  | none =>
      let r := compute_score_impl upstream text
      (r, (text, r) :: cache, 1)

def too_short_detail : String :=
  "Text is too short for evaluation (minimum 20 words required)."

def internal_error_detail : String := "Internal server error, please try again."

/-- The observable outcome of one POST /api/v1/evaluation request:
HTTP status and detail, the correctness cache afterwards, how many
grammar-engine calls were made, and how many analyzers were invoked. -/
structure EvalOutcome where
  status : ℕ
  detail : String
  cache : CorrectnessCache
  upstream_calls : ℕ
  analyzers_invoked : ℕ
  deriving DecidableEq, Repr

/-- evaluate_all of api/endpoints/evaluation.py.  Below 20 whitespace-split
words the handler raises HTTPException(400) before touching any analyzer.
Otherwise correctness runs first; when it yields None (an upstream failure or a
scoring ValidationError, both already swallowed by the service), the handler
dereferences correctness.issues, and the resulting AttributeError reaches the
catch-all handler as a 500.  When correctness succeeds, the vocabulary stage is
invoked next, and it always raises:
VocabularyEvaluator.evaluate calls precision_checker.evaluate(text, issues)
although PrecisionChecker.evaluate accepts only the text (TypeError), and with
a non-empty issue list the sophistication stage already fails earlier,
unpacking TextIssue objects as pairs (ValueError); both are answered with 500
by the except (TypeError, ValueError, ValidationError) arm, so the readability
and coherence stages are never reached. -/
def evaluate_all (upstream : String → Except Unit (List TextIssue))
    (cache : CorrectnessCache) (text : String) : EvalOutcome :=
  if python_word_count text < MIN_WORD_COUNT then
    { status := 400, detail := too_short_detail, cache := cache
      upstream_calls := 0, analyzers_invoked := 0 }
  else
    match cached_analyze upstream cache text with
    | (none, c2, calls) =>
        { status := 500, detail := internal_error_detail, cache := c2
          upstream_calls := calls, analyzers_invoked := 1 }
    | (some _, c2, calls) =>
        { status := 500, detail := internal_error_detail, cache := c2
          upstream_calls := calls, analyzers_invoked := 2 }

/-! ### Helper lemmas about the rounding and the correctness scoring -/

theorem round4_zero : round4 0 = 0 := by
  norm_num [round4, round_eq]

theorem round4_one : round4 1 = 1 := by
  norm_num [round4, round_eq]

theorem round4_nonneg {a : ℚ} (h : 0 ≤ a) : 0 ≤ round4 a := by
  have := round4_mono h
  rwa [round4_zero] at this

theorem round4_le_one {a : ℚ} (h : a ≤ 1) : round4 a ≤ 1 := by
  have := round4_mono h
  rwa [round4_one] at this

theorem correctness_normalized_penalty_nonneg (wc : ℕ) (issues : List TextIssue) :
    0 ≤ correctness_normalized_penalty wc issues := by
  apply round4_nonneg
  positivity

theorem correctness_score_nonneg (wc : ℕ) (issues : List TextIssue) :
    0 ≤ correctness_score wc issues := by
  have h := correctness_normalized_penalty_nonneg wc issues
  apply round4_nonneg
  apply div_nonneg (by norm_num)
  linarith

theorem correctness_score_le_one (wc : ℕ) (issues : List TextIssue) :
    correctness_score wc issues ≤ 1 := by
  have h := correctness_normalized_penalty_nonneg wc issues
  apply round4_le_one
  rw [div_le_one (by linarith)]
  linarith

/-! ### Concrete values used by the claim theorems -/

/-- A grammar issue in the WORD_USAGE category (severity 3). -/
def wu_issue : TextIssue :=
  { message := "possible word usage problem", replacements := [], error_text := ""
    error_length := 0, start_offset := 0, category := .WORD_USAGE, rule_issue_type := "" }

/-- A grammar issue in the MEANING_LOGIC category (severity 5). -/
def ml_issue : TextIssue :=
  { message := "meaning problem", replacements := [], error_text := ""
    error_length := 0, start_offset := 0, category := .MEANING_LOGIC, rule_issue_type := "" }

/-- A correctness result with score 1 (clean 20-word text). -/
def corr_one : CorrectnessResult :=
  { score := 1, word_count := 20, normalized_penalty := 0, issues := [], breakdown := [] }

def prec_one : PrecisionResult :=
  { score := 1, word_count := 10, normalized_penalty := 0, issues := [], breakdown := [] }

def soph_one : SophisticationResult :=
  { score := 1, word_count := 10, common_count := 0, mid_count := 0, rare_count := 10
    level := .ERUDITE }

def voc_one : VocabularyResult :=
  { score := 1, sophistication := soph_one, precision := prec_one
    lexical_diversity_ttr := 1 }

def coh_one : CoherenceResult :=
  { score := 1, text_coherence := 1, topic_coherence := none, feedback := ""
    suggestions := [], confidence := 1 }

/-- A global result whose coherence sub-result is absent and whose three other
components all score 1. -/
def g_absent : GlobalScore :=
  { coherence := none, correctness := corr_one, readability := empty_readability_result
    vocabulary := voc_one }

/-- The same global result with a coherence sub-result of score 1 present. -/
def g_present : GlobalScore := { g_absent with coherence := some coh_one }

/-- Claim C1.  The code disagrees with the claim when coherence is absent: the
conditional expression in GlobalScore._compute_score covers the whole weighted
sum, so the score collapses to 0 instead of the weighted sum of the three
present components; with coherence present the two agree. -/
theorem global_score_absent_coherence_codebug :
    GlobalScore.compute_score g_absent = 0
      ∧ claim_global_score g_absent = 3/4
      ∧ GlobalScore.compute_score g_absent ≠ claim_global_score g_absent
      ∧ GlobalScore.compute_score g_present = 1
      ∧ claim_global_score g_present = 1 := by
  refine ⟨?_, ?_, ?_, ?_, ?_⟩ <;>
    norm_num [GlobalScore.compute_score, claim_global_score, g_absent, g_present,
      corr_one, voc_one, coh_one, empty_readability_result,
      CORRECTNESS_WEIGHT, COHERENCE_WEIGHT, VOCABULARY_WEIGHT, READABILITY_WEIGHT]

/-- A 20-word input text. -/
def t20 : String := "w w w w w w w w w w w w w w w w w w w w"

/-- The grammar engine timing out on every text (LanguageToolError after the
10 second bound). -/
def timeout_upstream : String → Except Unit (List TextIssue) := fun _ => .error ()

/-- The recovered grammar engine, answering with no issues. -/
def recovered_upstream : String → Except Unit (List TextIssue) := fun _ => .ok []

/-- Claim C2.  On an upstream timeout the endpoint answers 500, not 408 (the
service swallows LanguageToolError into None and the handler then dereferences
None); the None outcome is stored in the lru_cache, so the retry after recovery
is served from the cache with no fresh upstream call and fails again. -/
theorem grammar_timeout_codebug :
    (evaluate_all timeout_upstream [] t20).status = 500
      ∧ (evaluate_all timeout_upstream [] t20).status ≠ 408
      ∧ (evaluate_all timeout_upstream [] t20).cache = [(t20, none)]
      ∧ (evaluate_all recovered_upstream (evaluate_all timeout_upstream [] t20).cache
          t20).status = 500
      ∧ (evaluate_all recovered_upstream (evaluate_all timeout_upstream [] t20).cache
          t20).upstream_calls = 0 := by
  decide

/-- The (first_replacement, original) pairs named by the loop variables of the
sophistication checker, for the two correctness issues of the scenario. -/
def c3_pairs : List (String × String) :=
  [("quantum", "quantums"), ("computing", "computinng")]

/-- A wordfreq oracle on which the real words have a mid-band Zipf value and
the misspellings are unseen (Zipf 0). -/
def c3_zipf : String → ℚ :=
  fun w => if w = "quantum" ∨ w = "computing" then 9/2 else 0

/-- Claim C3.  The substitution of the sophistication checker maps a token
equal to a FIRST component (a replacement word) to the SECOND component (the
original word), so the misspelled tokens of the text are never replaced: for
the quantums/computinng scenario both typos stay, both land in the unknown
bucket (count 2, not 0), and a token equal to the suggested replacement would
even be mapped back to the typo. -/
theorem sophistication_replacement_codebug :
    soph_substitute c3_pairs "quantums" = "quantums"
      ∧ soph_substitute c3_pairs "computinng" = "computinng"
      ∧ soph_substitute c3_pairs "quantum" = "quantums"
      ∧ (classify_words c3_zipf c3_pairs ["quantums", "computinng"]).unknown.length = 2
      ∧ (classify_words c3_zipf c3_pairs ["quantums", "computinng"]).unknown.length ≠ 0
      ∧ (classify_words c3_zipf [] ["quantum", "computing"]).unknown.length = 0 := by
  have e1 : "quantums" ≠ "quantum" := by decide
  have e2 : "quantums" ≠ "computing" := by decide
  have e3 : "computinng" ≠ "quantum" := by decide
  have e4 : "computinng" ≠ "computing" := by decide
  refine ⟨?_, ?_, ?_, ?_, ?_, ?_⟩ <;>
    norm_num [classify_words, soph_substitute, c3_pairs, c3_zipf, List.find?, List.foldl,
      e1, e2, e3, e4]

/-- Claim C4.  The composite readability score of the code differs from the
formula of the claim: the thresholds 15/25 and the difficulty test fre < 30 are
applied to the already normalized metrics, so the sentence-length factor is
constantly 1 (the composite does not depend on the average sentence length at
all) and the difficulty penalty is applied for every input. -/
theorem readability_composite_codebug :
    calculate_composite_score 80 6 20 = 302/375
      ∧ claim_composite_score 80 6 20 = 1879/2125
      ∧ calculate_composite_score 80 6 20 ≠ claim_composite_score 80 6 20
      ∧ (∀ fre dc a b : ℚ,
          calculate_composite_score fre dc a = calculate_composite_score fre dc b)
      ∧ (∀ fre dc avg : ℚ, (normalize_metric fre dc avg).flesch_reading_ease < 30) := by
  have habs : |(5 / 2 : ℚ)| = 5 / 2 := abs_of_nonneg (by norm_num)
  have h1 : calculate_composite_score 80 6 20 = 302/375 := by
    norm_num [calculate_composite_score, normalize_metric, habs, min_def, max_def]
  have h2 : claim_composite_score 80 6 20 = 1879/2125 := by
    norm_num [claim_composite_score, min_def, max_def]
  have hmetric : ∀ fre dc avg : ℚ,
      (normalize_metric fre dc avg).flesch_reading_ease < 30 := by
    intro fre dc avg
    have h1 : max 0 (min 1 (fre / 100)) ≤ 1 :=
      max_le (by norm_num) (min_le_left _ _)
    calc (normalize_metric fre dc avg).flesch_reading_ease
        = max 0 (min 1 (fre / 100)) := rfl
      _ ≤ 1 := h1
      _ < 30 := by norm_num
  refine ⟨h1, h2, by rw [h1, h2]; norm_num, ?_, hmetric⟩
  intro fre dc a b
  have hsent : ∀ x : ℚ, (min 1 (|x - 35/2| / 30) : ℚ) ≤ 15 :=
    fun x => le_trans (min_le_left _ _) (by norm_num)
  simp only [calculate_composite_score, normalize_metric]
  rw [if_pos (hsent a), if_pos (hsent b)]

/-- Claim C5.  The precision score is round(1 - normalized_penalty, 4) with no
clamp at 0: a one-word text with a single WORD_USAGE issue (severity 3) scores
-2, outside [0, 1], where the claim requires max(0, 1 - 3) = 0. -/
theorem precision_negative_codebug :
    (precision_evaluate [wu_issue] 1).score = -2
      ∧ (precision_evaluate [wu_issue] 1).score < 0
      ∧ max 0 (1 - (precision_evaluate [wu_issue] 1).normalized_penalty) = 0 := by
  have hs : (precision_evaluate [wu_issue] 1).score = -2 := by
    norm_num [precision_evaluate, wu_issue, precision_categories,
      ErrorCategory.severity, round4, round_eq]
  have hn : (precision_evaluate [wu_issue] 1).normalized_penalty = 3 := by
    norm_num [precision_evaluate, wu_issue, precision_categories,
      ErrorCategory.severity, round4, round_eq]
  refine ⟨hs, by rw [hs]; norm_num, by rw [hn]; norm_num [max_def]⟩

def c6_alpha_count : String → ℕ := fun _ => 10

def c6_clean_upstream : String → List TextIssue := fun _ => []

def c6_text : String := "a sample text"

/-- Claim C6.  PrecisionChecker.evaluate takes only the text and queries the
grammar engine afresh; the issue catalog produced by correctness and passed
into the vocabulary analyzer does not reach it.  With a clean fresh query but a
passed-in WORD_USAGE issue the code scores 1 while the claimed computation
(from the passed issues) scores 0.7. -/
theorem precision_fresh_upstream_codebug :
    (precision_checker_evaluate c6_clean_upstream c6_alpha_count c6_text).score = 1
      ∧ (claim_precision_from_passed_issues c6_alpha_count c6_text [wu_issue]).score = 7/10
      ∧ (precision_checker_evaluate c6_clean_upstream c6_alpha_count c6_text).score
          ≠ (claim_precision_from_passed_issues c6_alpha_count c6_text [wu_issue]).score := by
  have h1 : (precision_checker_evaluate c6_clean_upstream c6_alpha_count c6_text).score
      = 1 := by
    norm_num [precision_checker_evaluate, precision_evaluate, c6_clean_upstream,
      c6_alpha_count, round4, round_eq]
  have h2 : (claim_precision_from_passed_issues c6_alpha_count c6_text [wu_issue]).score
      = 7/10 := by
    norm_num [claim_precision_from_passed_issues, precision_evaluate, c6_alpha_count,
      wu_issue, precision_categories, ErrorCategory.severity, round4, round_eq]
  exact ⟨h1, h2, by rw [h1, h2]; norm_num⟩

/-- On a positive word count the zero-issue path of _score_text_issues does
return, with normalized penalty 0 and score exactly 1. -/
theorem score_text_issues_empty (wc : ℕ) (h : wc ≠ 0) :
    score_text_issues wc []
      = .ok { score := 1, word_count := wc, normalized_penalty := 0, issues := []
              breakdown := [] } := by
  have hz : correctness_normalized_penalty wc [] = 0 := by
    simp [correctness_normalized_penalty, total_penalty, round4_zero]
  have hsc : correctness_score wc [] = 1 := by
    rw [correctness_score, hz]
    norm_num [round4_one]
  simp [score_text_issues, h, hz, hsc]

/-- Claim C7.  For any non-empty issue list the scoring method never returns a
result: the breakdown and result models are typed against the enum and issue
classes of language_tool.models and correctness.models while the service
passes commons.models instances, so pydantic raises ValidationError on the
first issue and analyze swallows it into None.  The claimed rounded formulas
are realized only on the zero-issue path, whose score is exactly 1; and even in
the claim model the claimed open interval (0, 1] fails, since the four-decimal
rounding reaches exactly 0 at extreme penalty sums. -/
theorem correctness_scoring_raises_codebug :
    score_text_issues 20 [wu_issue] = .error ()
      ∧ compute_score_impl (fun _ => .ok [wu_issue]) t20 = none
      ∧ score_text_issues 20 []
          = .ok { score := 1, word_count := 20, normalized_penalty := 0, issues := []
                  breakdown := [] }
      ∧ (claim_score_text_issues 20 [wu_issue]).score = 1087/1250
      ∧ (claim_score_text_issues 1 (List.replicate 4000 ml_issue)).score = 0 := by
  refine ⟨rfl, by decide, score_text_issues_empty 20 (by norm_num), ?_, ?_⟩
  · norm_num [claim_score_text_issues, correctness_score, correctness_normalized_penalty,
      total_penalty, wu_issue, TextIssue.penalty, ErrorCategory.severity, round4, round_eq]
  · have htp : total_penalty (List.replicate 4000 ml_issue) = 20000 := by
      rw [total_penalty_replicate]; rfl
    have hsc : (claim_score_text_issues 1 (List.replicate 4000 ml_issue)).score
        = correctness_score 1 (List.replicate 4000 ml_issue) := rfl
    rw [hsc]
    simp only [correctness_score, correctness_normalized_penalty, htp]
    norm_num [round4, round_eq]

/-- Claim C8.  In the code the comparison the claim describes cannot be made:
at a fixed positive word count a score is returned only for the empty issue
list, and appending the first issue turns the 1.0-scoring result into a
pydantic ValidationError (None from analyze) instead of a weakly smaller
score.  The claimed monotonicity does hold in both arguments for the scoring
formula of the claim model. -/
theorem correctness_monotonicity_codebug :
    score_text_issues 20 []
        = .ok { score := 1, word_count := 20, normalized_penalty := 0, issues := []
                breakdown := [] }
      ∧ score_text_issues 20 ([] ++ [wu_issue]) = .error ()
      ∧ (∀ r : CorrectnessResult, score_text_issues 20 ([] ++ [wu_issue]) ≠ .ok r)
      ∧ (∀ (wc : ℕ) (issues : List TextIssue) (i : TextIssue),
          (claim_score_text_issues wc (issues ++ [i])).score
            ≤ (claim_score_text_issues wc issues).score)
      ∧ (∀ (wc1 wc2 : ℕ) (issues : List TextIssue), wc1 ≤ wc2 →
          (claim_score_text_issues wc1 issues).score
            ≤ (claim_score_text_issues wc2 issues).score) := by
  refine ⟨score_text_issues_empty 20 (by norm_num), rfl,
    fun r => by simp [score_text_issues], ?_, ?_⟩
  · intro wc issues i
    by_cases h : wc = 0
    · subst h; simp [claim_score_text_issues]
    · simp only [claim_score_text_issues, h, if_false]
      have hpen : (total_penalty issues : ℚ) ≤ (total_penalty (issues ++ [i]) : ℚ) := by
        rw [total_penalty_append]
        push_cast
        have : (0 : ℚ) ≤ (i.penalty : ℚ) := by positivity
        linarith
      have hden : (0 : ℚ) < ((max 1 wc : ℕ) : ℚ) := by
        have : 1 ≤ max 1 wc := le_max_left 1 wc
        exact_mod_cast Nat.lt_of_lt_of_le Nat.zero_lt_one this
      have hnp : correctness_normalized_penalty wc issues
          ≤ correctness_normalized_penalty wc (issues ++ [i]) := by
        apply round4_mono
        exact div_le_div_of_nonneg_right hpen hden.le
      have h0 := correctness_normalized_penalty_nonneg wc issues
      apply round4_mono
      apply one_div_le_one_div_of_le (by linarith)
      linarith
  · intro wc1 wc2 issues h
    by_cases h1 : wc1 = 0
    · subst h1
      by_cases h2 : wc2 = 0
      · subst h2; simp [claim_score_text_issues]
      · simp only [claim_score_text_issues, h2, if_false, if_pos rfl]
        exact correctness_score_nonneg wc2 issues
    · have h2 : wc2 ≠ 0 := by omega
      simp only [claim_score_text_issues, h1, h2, if_false]
      have hm : ((max 1 wc1 : ℕ) : ℚ) ≤ ((max 1 wc2 : ℕ) : ℚ) := by
        exact_mod_cast max_le_max (le_refl 1) h
      have hm1 : (0 : ℚ) < ((max 1 wc1 : ℕ) : ℚ) := by
        have : 1 ≤ max 1 wc1 := le_max_left 1 wc1
        exact_mod_cast Nat.lt_of_lt_of_le Nat.zero_lt_one this
      have hnp : correctness_normalized_penalty wc2 issues
          ≤ correctness_normalized_penalty wc1 issues := by
        apply round4_mono
        apply div_le_div_of_nonneg_left (by positivity) hm1 hm
      have h0 := correctness_normalized_penalty_nonneg wc2 issues
      apply round4_mono
      apply one_div_le_one_div_of_le (by linarith)
      linarith

/-- Witness for claim C8 at concrete inputs. -/
theorem correctness_monotonicity_codebug_witness :
    (1 : ℕ) ≤ 2
      ∧ (claim_score_text_issues 1 [wu_issue]).score
          ≤ (claim_score_text_issues 2 [wu_issue]).score :=
  ⟨by decide, correctness_monotonicity_codebug.2.2.2.2 1 2 [wu_issue] (by decide)⟩

/-- Claim C9: below 20 whitespace-split words the endpoint answers 400 with the
fixed message and invokes no analyzer and no upstream call; at 20 or more words
the too-short rejection never happens. -/
theorem evaluation_min_word_gate (upstream : String → Except Unit (List TextIssue))
    (cache : CorrectnessCache) (text : String) :
    (python_word_count text < MIN_WORD_COUNT →
        evaluate_all upstream cache text =
          { status := 400, detail := too_short_detail, cache := cache
            upstream_calls := 0, analyzers_invoked := 0 })
      ∧ (MIN_WORD_COUNT ≤ python_word_count text →
        (evaluate_all upstream cache text).status ≠ 400
          ∧ (evaluate_all upstream cache text).detail ≠ too_short_detail) := by
  constructor
  · intro h
    simp only [evaluate_all]
    rw [if_pos h]
  · intro h
    have hn : ¬ (python_word_count text < MIN_WORD_COUNT) := not_lt.mpr h
    simp only [evaluate_all]
    rw [if_neg hn]
    rcases hcall : cached_analyze upstream cache text with ⟨r, c2, n⟩
    cases r
    · constructor
      · show (500 : ℕ) ≠ 400
        decide
      · show internal_error_detail ≠ too_short_detail
        decide
    · constructor
      · show (500 : ℕ) ≠ 400
        decide
      · show internal_error_detail ≠ too_short_detail
        decide

/-- Witness for claim C9: a 2-word text is rejected with the fixed message, a
20-word text is not. -/
theorem evaluation_min_word_gate_witness :
    (python_word_count "too short" < MIN_WORD_COUNT
        ∧ evaluate_all recovered_upstream [] "too short" =
          { status := 400, detail := too_short_detail, cache := []
            upstream_calls := 0, analyzers_invoked := 0 })
      ∧ (MIN_WORD_COUNT ≤ python_word_count t20
        ∧ (evaluate_all recovered_upstream [] t20).status ≠ 400) :=
  ⟨⟨by decide, (evaluation_min_word_gate recovered_upstream [] "too short").1 (by decide)⟩,
   ⟨by decide, ((evaluation_min_word_gate recovered_upstream [] t20).2 (by decide)).1⟩⟩

/-- Claim C10, counterexample: on empty text the readability analyzer returns
the perfect-score result, not a zero-filled one (score 1, Flesch 100, non-empty
issue list). -/
theorem empty_text_readability_counterexample :
    (readability_analyze_impl (fun _ => empty_readability_result) "").score = 1
      ∧ (readability_analyze_impl (fun _ => empty_readability_result) "").score ≠ 0
      ∧ (readability_analyze_impl (fun _ => empty_readability_result) "").issues ≠ [] := by
  have hb : python_blank "" = true := by decide
  refine ⟨?_, ?_, ?_⟩ <;>
    simp [readability_analyze_impl, hb, empty_readability_result]

/-- Claim C10 as amended: on empty or whitespace-only text no analyzer raises;
correctness is zero-filled with empty lists, readability returns its fixed
empty-text result with score 1.0 and Flesch 100 and one-element issue and
suggestion lists, and coherence (when a credential is configured) returns zero
scores and confidence 1 with a fixed feedback string and a one-element
suggestion list. -/
theorem blank_text_analyzer_results (text : String) (issues : List TextIssue)
    (nonblank : String → ReadabilityResult)
    (llm : String → Option String → CoherenceResult) (topic : Option String)
    (h : python_blank text = true) :
    score_text_issues (python_word_count text) issues
        = .ok { score := 0, word_count := 0, normalized_penalty := 0, issues := []
                breakdown := [] }
      ∧ readability_analyze_impl nonblank text = empty_readability_result
      ∧ (readability_analyze_impl nonblank text).score = 1
      ∧ (readability_analyze_impl nonblank text).issues = ["Empty text provided"]
      ∧ coherence_analyze false llm text topic
        = some
            { score := 0, text_coherence := 0
              topic_coherence := if topic.isSome then some 0 else none
              feedback := "Empty text provided for analysis"
              suggestions := ["Provide a valid text for coherence analysis"]
              confidence := 1 } := by
  have hw := python_word_count_of_blank h
  refine ⟨by simp [score_text_issues, hw], ?_, ?_, ?_, ?_⟩
  · simp [readability_analyze_impl, h]
  · simp [readability_analyze_impl, h, empty_readability_result]
  · simp [readability_analyze_impl, h, empty_readability_result]
  · simp [coherence_analyze, h]

/-- Witness for the amended claim C10 on a whitespace-only text. -/
theorem blank_text_analyzer_results_witness :
    python_blank " " = true
      ∧ readability_analyze_impl (fun _ => empty_readability_result) " "
          = empty_readability_result :=
  ⟨by decide,
   (blank_text_analyzer_results " " [] (fun _ => empty_readability_result)
      (fun _ _ => coh_one) none (by decide)).2.1⟩

end TextRefine
